import Mathlib

/-!
Shallow embedding of the NES CPU emulator (src/cpu.rs, src/opcodes.rs).

Machine integers are modelled as `Nat` with explicit `% 2^w` wherever the
Rust code wraps.  A `u8` value is a `Nat` below 256 and a `u16` value a
`Nat` below 65536; theorems carry these bounds as hypotheses where the
faithfulness of the wrapping arithmetic depends on them.

The 65535-entry memory array `[u8; 0xFFFF]` of the source is modelled at
two levels:
* the total level (`CPU.memory : Nat → Nat`, `mem_read`, `mem_write`)
  describes the defined behaviour, i.e. accesses at indices that are in
  bounds for the array;
* the checked level (`MEMORY_SIZE`, `mem_read?`, `load?`,
  `get_operand_address?`) additionally models the out-of-range accesses
  on which the Rust code aborts (array indexing / slicing out of bounds,
  and the explicit abort of the resolver on `NoneAddressing`).
-/

namespace NesEmu

/-- Flag constants from src/cpu.rs (bit masks inside the status byte). -/
def FLAG_CARRY : Nat := 0x01

/-- Zero flag mask (bit 1). -/
def FLAG_ZERO : Nat := 0x02

/-- Interrupt-disable flag mask (bit 2). -/
def FLAG_INTERRUPT_DISABLE : Nat := 0x04

/-- Decimal-mode flag mask (bit 3). -/
def FLAG_DECIMAL_MODE : Nat := 0x08

/-- Break flag mask (bit 4). -/
def FLAG_BREAK : Nat := 0x10

/-- Unused flag mask (bit 5). -/
def FLAG_UNUSED : Nat := 0x20

/-- Overflow flag mask (bit 6). -/
def FLAG_OVERFLOW : Nat := 0x40

/-- Negative flag mask (bit 7). -/
def FLAG_NEGATIVE : Nat := 0x80

/-- Addressing modes, from `enum AddressingMode` in src/cpu.rs. -/
inductive AddressingMode where
  | Immediate
  | ZeroPage
  | ZeroPage_X
  | ZeroPage_Y
  | Absolute
  | Absolute_X
  | Absolute_Y
  | Indirect_X
  | Indirect_Y
  | NoneAddressing
deriving DecidableEq

/-- CPU state, from `struct CPU` in src/cpu.rs.  The registers and the
status byte are `u8`, the program counter `u16`; `memory` maps an
address to the byte stored there (the source array has `0xFFFF`
entries, see `MEMORY_SIZE`). -/
structure CPU where
  register_a : Nat
  register_x : Nat
  register_y : Nat
  status : Nat
  program_counter : Nat
  memory : Nat → Nat

/-- Number of entries of the memory array in the source: `[u8; 0xFFFF]`
has `0xFFFF = 65535` entries, so the valid indices are
`0x0000 .. 0xFFFE`. -/
def MEMORY_SIZE : Nat := 0xFFFF

/-- CPU::new from src/cpu.rs: all registers zero, memory zero-filled. -/
def CPU.new : CPU :=
  { register_a := 0
    register_x := 0
    register_y := 0
    status := 0
    program_counter := 0
    memory := fun _ => 0 }

/-- Bitwise NOT on a byte: Rust `!flag` on a `u8` (all eight bits
flipped). -/
def not8 (x : Nat) : Nat := 255 ^^^ (x % 256)

/-- Status-byte operation underlying CPU::set_flag: `status | flag`. -/
def setFlag (st flag : Nat) : Nat := st ||| flag

/-- Status-byte operation underlying CPU::clear_flag:
`status & !flag`. -/
def clearFlag (st flag : Nat) : Nat := st &&& not8 flag

/-- Status-byte operation underlying CPU::set_flag_if. -/
def setFlagIf (st flag : Nat) (condition : Bool) : Nat :=
  if condition then setFlag st flag else clearFlag st flag

/-- Status-byte operation underlying CPU::check_flag:
`status & flag == flag`. -/
def checkFlag (st flag : Nat) : Bool := st &&& flag == flag

/-- CPU::mem_read (the `Mem` impl): read the byte at an address.  The
total level does not model the out-of-bounds abort at index `0xFFFF`;
see `mem_read?`. -/
def mem_read (s : CPU) (address : Nat) : Nat := s.memory address

/-- Checked counterpart of `mem_read`: the Rust array access
`self.memory[address as usize]` aborts when `address` is not below the
array length `0xFFFF`. -/
def mem_read? (s : CPU) (address : Nat) : Option Nat :=
  if address < MEMORY_SIZE then some (s.memory address) else none

/-- CPU::mem_write (the `Mem` impl): store a byte at an address. -/
def mem_write (s : CPU) (address data : Nat) : CPU :=
  { s with memory := fun a => if a = address then data else s.memory a }

/-- Mem::mem_read_u16: little-endian 16-bit read,
`(hi << 8) | lo` with `lo` at `address` and `hi` at `address + 1`. -/
def mem_read_u16 (s : CPU) (address : Nat) : Nat :=
  (mem_read s (address + 1)) <<< 8 ||| mem_read s address

/-- Mem::mem_write_u16: little-endian 16-bit write, low byte
(`data & 0xff`) first at `address`, then high byte (`data >> 8`) at
`address + 1`. -/
def mem_write_u16 (s : CPU) (address data : Nat) : CPU :=
  mem_write (mem_write s address (data &&& 0xff)) (address + 1) (data >>> 8)

/-- CPU::check_flag. -/
def check_flag (s : CPU) (flag : Nat) : Bool := checkFlag s.status flag

/-- CPU::set_flag. -/
def set_flag (s : CPU) (flag : Nat) : CPU :=
  { s with status := setFlag s.status flag }

/-- CPU::clear_flag. -/
def clear_flag (s : CPU) (flag : Nat) : CPU :=
  { s with status := clearFlag s.status flag }

/-- CPU::set_flag_if. -/
def set_flag_if (s : CPU) (flag : Nat) (condition : Bool) : CPU :=
  { s with status := setFlagIf s.status flag condition }

/-- CPU::update_zero_flag: Zero is set iff `result == 0`. -/
def update_zero_flag (s : CPU) (result : Nat) : CPU :=
  set_flag_if s FLAG_ZERO (result == 0)

/-- CPU::update_negative_flag: Negative is set iff
`result & FLAG_NEGATIVE != 0`. -/
def update_negative_flag (s : CPU) (result : Nat) : CPU :=
  set_flag_if s FLAG_NEGATIVE (result &&& FLAG_NEGATIVE != 0)

/-- CPU::update_zero_and_negative_flags. -/
def update_zero_and_negative_flags (s : CPU) (result : Nat) : CPU :=
  update_negative_flag (update_zero_flag s result) result

/-- CPU::set_register_a: store and refresh Zero/Negative. -/
def set_register_a (s : CPU) (value : Nat) : CPU :=
  let s := { s with register_a := value }
  update_zero_and_negative_flags s s.register_a

/-- CPU::set_register_x. -/
def set_register_x (s : CPU) (value : Nat) : CPU :=
  let s := { s with register_x := value }
  update_zero_and_negative_flags s s.register_x

/-- CPU::set_register_y. -/
def set_register_y (s : CPU) (value : Nat) : CPU :=
  let s := { s with register_y := value }
  update_zero_and_negative_flags s s.register_y

/-- u8 wrapping addition, faithful for byte-sized arguments. -/
def wrapping_add8 (a b : Nat) : Nat := (a + b) % 256

/-- u8 wrapping subtraction, faithful for byte-sized arguments. -/
def wrapping_sub8 (a b : Nat) : Nat := (a + (256 - b % 256)) % 256

/-- u16 wrapping addition, faithful for 16-bit-sized arguments. -/
def wrapping_add16 (a b : Nat) : Nat := (a + b) % 65536

/-- CPU::get_operand_address, total level.  The source aborts on
`NoneAddressing` (`UnsupportedAddressingMode`); the total level returns
the junk value `0` there — it is only consulted at the other nine
modes, on which it agrees with the faithful checked resolver
`get_operand_address?` (see `get_operand_address?_ok_agrees`). -/
def get_operand_address (s : CPU) (mode : AddressingMode) : Nat :=
  match mode with
  | .Immediate => s.program_counter
  | .ZeroPage => mem_read s s.program_counter
  | .Absolute => mem_read_u16 s s.program_counter
  | .ZeroPage_X =>
      let pos := mem_read s s.program_counter
      let addr := wrapping_add8 pos s.register_x
      addr
  | .ZeroPage_Y =>
      let pos := mem_read s s.program_counter
      let addr := wrapping_add8 pos s.register_y
      addr
  | .Absolute_X =>
      let base := mem_read_u16 s s.program_counter
      let addr := wrapping_add16 base s.register_x
      addr
  | .Absolute_Y =>
      let base := mem_read_u16 s s.program_counter
      let addr := wrapping_add16 base s.register_y
      addr
  | .Indirect_X =>
      let base := mem_read s s.program_counter
      let ptr := wrapping_add8 base s.register_x
      let lo := mem_read s ptr
      let hi := mem_read s (wrapping_add8 ptr 1)
      hi <<< 8 ||| lo
  | .Indirect_Y =>
      let base := mem_read s s.program_counter
      let lo := mem_read s base
      let hi := mem_read s (wrapping_add8 base 1)
      let deref_base := hi <<< 8 ||| lo
      let deref := wrapping_add16 deref_base s.register_y
      deref
  | .NoneAddressing => 0

/-- Failure modes of the checked resolver: the explicit abort of the
source on `NoneAddressing` (`UnsupportedAddressingMode`), and the
out-of-bounds abort of an array access inside `mem_read`. -/
inductive ResolveError where
  | unsupportedMode
  | outOfBounds
deriving DecidableEq

/-- Checked byte read inside the resolver, with the out-of-bounds
abort made explicit. -/
def res_read (s : CPU) (address : Nat) : Except ResolveError Nat :=
  if address < MEMORY_SIZE then Except.ok (s.memory address)
  else Except.error ResolveError.outOfBounds

/-- Checked little-endian 16-bit read inside the resolver (low byte is
read first, exactly as in Mem::mem_read_u16). -/
def res_read_u16 (s : CPU) (address : Nat) : Except ResolveError Nat := do
  let lo ← res_read s address
  let hi ← res_read s (address + 1)
  return hi <<< 8 ||| lo

/-- CPU::get_operand_address, checked level: identical to the source,
with both kinds of aborts (unsupported mode / out-of-bounds read)
surfaced as errors. -/
def get_operand_address? (s : CPU) (mode : AddressingMode) :
    Except ResolveError Nat :=
  match mode with
  | .Immediate => Except.ok s.program_counter
  | .ZeroPage => res_read s s.program_counter
  | .Absolute => res_read_u16 s s.program_counter
  | .ZeroPage_X => do
      let pos ← res_read s s.program_counter
      return wrapping_add8 pos s.register_x
  | .ZeroPage_Y => do
      let pos ← res_read s s.program_counter
      return wrapping_add8 pos s.register_y
  | .Absolute_X => do
      let base ← res_read_u16 s s.program_counter
      return wrapping_add16 base s.register_x
  | .Absolute_Y => do
      let base ← res_read_u16 s s.program_counter
      return wrapping_add16 base s.register_y
  | .Indirect_X => do
      let base ← res_read s s.program_counter
      let ptr := wrapping_add8 base s.register_x
      let lo ← res_read s ptr
      let hi ← res_read s (wrapping_add8 ptr 1)
      return hi <<< 8 ||| lo
  | .Indirect_Y => do
      let base ← res_read s s.program_counter
      let lo ← res_read s base
      let hi ← res_read s (wrapping_add8 base 1)
      let deref_base := hi <<< 8 ||| lo
      return wrapping_add16 deref_base s.register_y
  | .NoneAddressing => Except.error ResolveError.unsupportedMode

/-- CPU::reset: zero A, X and the status byte (register Y is not
touched by the source), then load the program counter from the reset
vector at 0xFFFC. -/
def reset (s : CPU) : CPU :=
  let s := { s with register_a := 0, register_x := 0, status := 0 }
  { s with program_counter := mem_read_u16 s 0xFFFC }

/-- CPU::load, total level: copy the program into memory starting at
0x8000, then write the reset vector 0x8000 at 0xFFFC/0xFFFD.  The
out-of-bounds abort of the slice copy for programs longer than
0x7FFF bytes is modelled by `load?`. -/
def load (s : CPU) (program : List Nat) : CPU :=
  let s := { s with memory := fun a =>
      (if 0x8000 ≤ a ∧ a < 0x8000 + program.length
       then program.getD (a - 0x8000) 0
       else s.memory a) }
  mem_write_u16 s 0xFFFC 0x8000

/-- Checked counterpart of `load`: the slice
`self.memory[0x8000..(0x8000 + program.len())]` is in bounds for the
0xFFFF-entry array exactly when `0x8000 + program.len() ≤ 0xFFFF`;
otherwise the slicing aborts. -/
def load? (s : CPU) (program : List Nat) : Option CPU :=
  if 0x8000 + program.length ≤ MEMORY_SIZE then some (load s program)
  else none

/-- CPU::and (opcode AND). -/
def and_op (s : CPU) (mode : AddressingMode) : CPU :=
  let addr := get_operand_address s mode
  let value := mem_read s addr
  set_register_a s (s.register_a &&& value)

/-- CPU::asl_accumulator. -/
def asl_accumulator (s : CPU) : CPU :=
  let value := s.register_a
  let s := if value >>> 7 = 1 then set_flag s FLAG_CARRY
           else clear_flag s FLAG_CARRY
  let value := (value <<< 1) % 256
  set_register_a s value

/-- CPU::asl (memory operand): Carry from the old bit 7, shifted value
written back, Negative refreshed from the new value; the Zero flag is
not touched. -/
def asl (s : CPU) (mode : AddressingMode) : CPU :=
  let addr := get_operand_address s mode
  let value := mem_read s addr
  let s := if value >>> 7 = 1 then set_flag s FLAG_CARRY
           else clear_flag s FLAG_CARRY
  let value := (value <<< 1) % 256
  let s := mem_write s addr value
  update_negative_flag s value

/-- CPU::branch: when the condition holds, read the relative offset at
the program counter as an `i8`, and set the program counter to
`pc.wrapping_add(1).wrapping_add(offset as u16)` (the `i8 → u16` cast
sign-extends, i.e. adds 0xFF00 for offsets with bit 7 set; faithful
for byte-sized offsets). -/
def branch (s : CPU) (condition : Bool) : CPU :=
  if condition then
    let jump := mem_read s s.program_counter
    let jump_u16 := if 128 ≤ jump then 0xFF00 + jump else jump
    let jump_addr := wrapping_add16 (wrapping_add16 s.program_counter 1) jump_u16
    { s with program_counter := jump_addr }
  else s

/-- CPU::bit: Overflow from bit 6 of the operand, Negative from bit 7,
Zero from `operand & A == 0`; nothing else changes. -/
def bit (s : CPU) (mode : AddressingMode) : CPU :=
  let addr := get_operand_address s mode
  let data := mem_read s addr
  let masked_value := data &&& s.register_a
  let bit6 := data &&& FLAG_OVERFLOW
  let bit7 := data &&& FLAG_NEGATIVE
  let s := set_flag_if s FLAG_OVERFLOW (bit6 != 0)
  let s := set_flag_if s FLAG_NEGATIVE (bit7 != 0)
  set_flag_if s FLAG_ZERO (masked_value == 0)

/-- CPU::compare (shared by CMP/CPX/CPY): Carry iff
`compare_val >= data`, then Zero/Negative from the wrapping difference
`compare_val - data`. -/
def compare (s : CPU) (mode : AddressingMode) (compare_val : Nat) : CPU :=
  let addr := get_operand_address s mode
  let data := mem_read s addr
  let s := if compare_val ≥ data then set_flag s FLAG_CARRY
           else clear_flag s FLAG_CARRY
  update_zero_and_negative_flags s (wrapping_sub8 compare_val data)

/-- CPU::dec. -/
def dec (s : CPU) (mode : AddressingMode) : CPU :=
  let addr := get_operand_address s mode
  let result := wrapping_sub8 (mem_read s addr) 1
  let s := mem_write s addr result
  update_zero_and_negative_flags s result

/-- CPU::dex (the source takes and ignores a mode argument). -/
def dex (s : CPU) (_mode : AddressingMode) : CPU :=
  set_register_x s (wrapping_sub8 s.register_x 1)

/-- CPU::dey (the source takes and ignores a mode argument). -/
def dey (s : CPU) (_mode : AddressingMode) : CPU :=
  set_register_y s (wrapping_sub8 s.register_y 1)

/-- CPU::lda. -/
def lda (s : CPU) (mode : AddressingMode) : CPU :=
  let addr := get_operand_address s mode
  let value := mem_read s addr
  set_register_a s value

/-- CPU::ldx. -/
def ldx (s : CPU) (mode : AddressingMode) : CPU :=
  let addr := get_operand_address s mode
  let value := mem_read s addr
  set_register_x s value

/-- CPU::ldy. -/
def ldy (s : CPU) (mode : AddressingMode) : CPU :=
  let addr := get_operand_address s mode
  let value := mem_read s addr
  set_register_y s value

/-- CPU::sta. -/
def sta (s : CPU) (mode : AddressingMode) : CPU :=
  let addr := get_operand_address s mode
  mem_write s addr s.register_a

/-- CPU::tax. -/
def tax (s : CPU) : CPU :=
  let s := { s with register_x := s.register_a }
  update_zero_and_negative_flags s s.register_x

/-- CPU::inx. -/
def inx (s : CPU) : CPU :=
  let s := { s with register_x := wrapping_add8 s.register_x 1 }
  update_zero_and_negative_flags s s.register_x

/-- OpCode, from src/opcodes.rs. -/
structure OpCode where
  code : Nat
  mnemonic : String
  len : Nat
  cycles : Nat
  mode : AddressingMode

/-- CPU_OPS_CODES, the opcode table from src/opcodes.rs. -/
def CPU_OPS_CODES : List OpCode := [
  ⟨0x00, "BRK", 1, 7, .NoneAddressing⟩,
  ⟨0xaa, "TAX", 1, 2, .NoneAddressing⟩,
  ⟨0xe8, "INX", 1, 2, .NoneAddressing⟩,
  ⟨0x29, "AND", 2, 2, .Immediate⟩,
  ⟨0x25, "AND", 2, 3, .ZeroPage⟩,
  ⟨0x35, "AND", 2, 4, .ZeroPage_X⟩,
  ⟨0x2D, "AND", 3, 4, .Absolute⟩,
  ⟨0x3D, "AND", 3, 4, .Absolute_X⟩,
  ⟨0x39, "AND", 3, 4, .Absolute_Y⟩,
  ⟨0x21, "AND", 2, 6, .Indirect_X⟩,
  ⟨0x31, "AND", 2, 5, .Indirect_Y⟩,
  ⟨0x0A, "ASL", 1, 2, .NoneAddressing⟩,
  ⟨0x06, "ASL", 2, 5, .ZeroPage⟩,
  ⟨0x16, "ASL", 2, 6, .ZeroPage_X⟩,
  ⟨0x0E, "ASL", 3, 6, .Absolute⟩,
  ⟨0x1E, "ASL", 3, 7, .Absolute_X⟩,
  ⟨0x90, "BCC", 2, 2, .NoneAddressing⟩,
  ⟨0xB0, "BCS", 2, 2, .NoneAddressing⟩,
  ⟨0xF0, "BEQ", 2, 2, .NoneAddressing⟩,
  ⟨0x30, "BMI", 2, 2, .NoneAddressing⟩,
  ⟨0xD0, "BNE", 2, 2, .NoneAddressing⟩,
  ⟨0x10, "BPL", 2, 2, .NoneAddressing⟩,
  ⟨0x50, "BVC", 2, 2, .NoneAddressing⟩,
  ⟨0x70, "BVS", 2, 2, .NoneAddressing⟩,
  ⟨0x18, "CLC", 1, 2, .NoneAddressing⟩,
  ⟨0xD8, "CLD", 1, 2, .NoneAddressing⟩,
  ⟨0x58, "CLI", 1, 2, .NoneAddressing⟩,
  ⟨0xB8, "CLV", 1, 2, .NoneAddressing⟩,
  ⟨0xC9, "CMP", 2, 2, .Immediate⟩,
  ⟨0xC5, "CMP", 2, 3, .ZeroPage⟩,
  ⟨0xD5, "CMP", 2, 4, .ZeroPage_X⟩,
  ⟨0xCD, "CMP", 3, 4, .Absolute⟩,
  ⟨0xDD, "CMP", 3, 4, .Absolute_X⟩,
  ⟨0xD9, "CMP", 3, 4, .Absolute_Y⟩,
  ⟨0xC1, "CMP", 2, 6, .Indirect_X⟩,
  ⟨0xD1, "CMP", 2, 5, .Indirect_Y⟩,
  ⟨0xE0, "CPX", 2, 2, .Immediate⟩,
  ⟨0xE4, "CPX", 2, 3, .ZeroPage⟩,
  ⟨0xEC, "CPX", 3, 4, .Absolute⟩,
  ⟨0xC0, "CPY", 2, 2, .Immediate⟩,
  ⟨0xC4, "CPY", 2, 3, .ZeroPage⟩,
  ⟨0xCC, "CPY", 3, 4, .Absolute⟩,
  ⟨0xA9, "LDA", 2, 2, .Immediate⟩,
  ⟨0xA5, "LDA", 2, 3, .ZeroPage⟩,
  ⟨0xB5, "LDA", 2, 4, .ZeroPage_X⟩,
  ⟨0xAD, "LDA", 3, 4, .Absolute⟩,
  ⟨0xBD, "LDA", 3, 4, .Absolute_X⟩,
  ⟨0xB9, "LDA", 3, 4, .Absolute_Y⟩,
  ⟨0xA1, "LDA", 2, 6, .Indirect_X⟩,
  ⟨0xB1, "LDA", 2, 5, .Indirect_Y⟩,
  ⟨0x85, "STA", 2, 3, .ZeroPage⟩,
  ⟨0x95, "STA", 2, 4, .ZeroPage_X⟩,
  ⟨0x8d, "STA", 3, 4, .Absolute⟩,
  ⟨0x9d, "STA", 3, 5, .Absolute_X⟩,
  ⟨0x99, "STA", 3, 5, .Absolute_Y⟩,
  ⟨0x81, "STA", 2, 6, .Indirect_X⟩,
  ⟨0x91, "STA", 2, 6, .Indirect_Y⟩]

/-- OPCODES_MAP: lookup by opcode byte (the table has no duplicate
codes, so the HashMap built in the source agrees with a list
search). -/
def OPCODES_MAP (code : Nat) : Option OpCode :=
  CPU_OPS_CODES.find? (fun op => op.code == code)

/-- Result of one iteration of the `loop` inside CPU::run:
the loop either continues with a new state, returns (BRK), or aborts
because the fetched code is missing from OPCODES_MAP (the `expect`
in the source). -/
inductive StepResult where
  | next (s : CPU)
  | brk (s : CPU)
  | fault (s : CPU)

/-- Dispatch of the big `match code` inside CPU::run (every arm except
`0x00 => return`, which `runStep` handles before dispatching).  Codes
matched by no arm fall into the `todo!()` default of the source; the
value returned for them here is irrelevant because the `expect` on
OPCODES_MAP aborts first for every such code (see `runStep`). -/
def dispatch (code : Nat) (mode : AddressingMode) (s : CPU) : CPU :=
  match code with
  | 0x29 | 0x25 | 0x35 | 0x2D | 0x3D | 0x39 | 0x21 | 0x31 => and_op s mode
  | 0x0A => asl_accumulator s
  | 0x06 | 0x16 | 0x0E | 0x1E => asl s mode
  | 0x90 => branch s (!check_flag s FLAG_CARRY)
  | 0xB0 => branch s (check_flag s FLAG_CARRY)
  | 0xF0 => branch s (check_flag s FLAG_ZERO)
  | 0x30 => branch s (check_flag s FLAG_NEGATIVE)
  | 0xD0 => branch s (!check_flag s FLAG_ZERO)
  | 0x10 => branch s (!check_flag s FLAG_NEGATIVE)
  | 0x50 => branch s (!check_flag s FLAG_OVERFLOW)
  | 0x70 => branch s (check_flag s FLAG_OVERFLOW)
  | 0x24 | 0x2C => bit s mode
  | 0x18 => clear_flag s FLAG_CARRY
  | 0xD8 => clear_flag s FLAG_DECIMAL_MODE
  | 0x58 => clear_flag s FLAG_INTERRUPT_DISABLE
  | 0xB8 => clear_flag s FLAG_OVERFLOW
  | 0xC9 | 0xC5 | 0xD5 | 0xCD | 0xDD | 0xD9 | 0xC1 | 0xD1 =>
      compare s mode s.register_a
  | 0xE0 | 0xE4 | 0xEC => compare s mode s.register_x
  | 0xC0 | 0xC4 | 0xCC => compare s mode s.register_y
  | 0xC6 | 0xD6 | 0xCE | 0xDE => dec s mode
  | 0xCA => dex s mode
  | 0x88 => dey s mode
  | 0xA9 | 0xA5 | 0xB5 | 0xAD | 0xBD | 0xB9 | 0xA1 | 0xB1 => lda s mode
  | 0xA2 | 0xA6 | 0xB6 | 0xAE | 0xBE => ldx s mode
  | 0xA0 | 0xA4 | 0xB4 | 0xAC | 0xBC => ldy s mode
  | 0x85 | 0x95 | 0x8d | 0x9d | 0x99 | 0x81 | 0x91 => sta s mode
  | 0xAA => tax s
  | 0xE8 => inx s
  | _ => s

/-- The eight relative-branch opcode bytes handled via CPU::branch. -/
def isBranch (code : Nat) : Bool :=
  code == 0x90 || code == 0xB0 || code == 0xF0 || code == 0x30 ||
  code == 0xD0 || code == 0x10 || code == 0x50 || code == 0x70

/-- The condition CPU::run passes to CPU::branch for each branch
opcode (`false` for non-branch codes, which never call branch). -/
def branchCond (code : Nat) (s : CPU) : Bool :=
  if code == 0x90 then !check_flag s FLAG_CARRY
  else if code == 0xB0 then check_flag s FLAG_CARRY
  else if code == 0xF0 then check_flag s FLAG_ZERO
  else if code == 0x30 then check_flag s FLAG_NEGATIVE
  else if code == 0xD0 then !check_flag s FLAG_ZERO
  else if code == 0x10 then !check_flag s FLAG_NEGATIVE
  else if code == 0x50 then !check_flag s FLAG_OVERFLOW
  else if code == 0x70 then check_flag s FLAG_OVERFLOW
  else false

/-- Target of a taken branch whose opcode byte sits at
`s.program_counter`: the offset byte sits at `program_counter + 1`
(the marker), and the target is marker + 1 plus the sign-extended
offset, wrapping at 2^16 — exactly the `jump_addr` computed by
CPU::branch. -/
def branchTarget (s : CPU) : Nat :=
  let off := s.memory (s.program_counter + 1)
  wrapping_add16 (wrapping_add16 (s.program_counter + 1) 1)
    (if 128 ≤ off then 0xFF00 + off else off)

/-- One iteration of the `loop` inside CPU::run: fetch the opcode at
the program counter, advance the counter past the opcode byte and
remember it (`program_counter_state`), look the code up in
OPCODES_MAP (aborting like the source's `expect` when it is absent),
dispatch, and — unless the code was BRK, on which `run` returns —
advance the program counter by `len - 1` exactly when the handler
left it equal to the remembered marker. -/
def runStep (s : CPU) : StepResult :=
  let code := mem_read s s.program_counter
  let s := { s with program_counter := s.program_counter + 1 }
  let program_counter_state := s.program_counter
  match OPCODES_MAP code with
  | none => StepResult.fault s
  | some opcode =>
      if code = 0x00 then StepResult.brk s
      else
        let s := dispatch code opcode.mode s
        StepResult.next <|
          if s.program_counter = program_counter_state
          then { s with program_counter := s.program_counter + (opcode.len - 1) }
          else s

/-- Concrete input for the reset claim: a CPU whose Y register holds 5. -/
def resetYInput : CPU := { CPU.new with register_y := 5 }

/-- Concrete input for the reset claim: vector bytes 0x34/0x12 at
0xFFFC/0xFFFD and Y holding 7. -/
def resetVecInput : CPU :=
  { CPU.new with
    register_y := 7
    memory := fun a => (if a = 0xFFFC then 0x34 else if a = 0xFFFD then 0x12 else 0) }

/-- Concrete input for the run-loop claim: a BEQ instruction with
relative offset 0xFF (−1) at 0x8000, with the Zero flag set, so the
branch is taken and its target is the marker address 0x8001. -/
def branchBackInput : CPU :=
  { CPU.new with
    status := FLAG_ZERO
    program_counter := 0x8000
    memory := fun a => (if a = 0x8000 then 0xF0 else if a = 0x8001 then 0xFF else 0) }

/-- Concrete input for the run-loop claim witness: LDA immediate 0x05
at 0x8000. -/
def ldaImmInput : CPU :=
  { CPU.new with
    program_counter := 0x8000
    memory := fun a => (if a = 0x8000 then 0xA9 else if a = 0x8001 then 0x05 else 0) }

/-- Concrete input for the resolver claim: program counter at the top
address 0xFFFF, where the operand byte of a ZeroPage instruction lies
outside the 0xFFFF-entry memory array. -/
def pcTopInput : CPU := { CPU.new with program_counter := 0xFFFF }

/-- Concrete input for instruction-handler witnesses: an operand byte
0xC7 (bits 0, 1, 2, 6, 7 set) at the program counter 0x10, with
A = 0x0F. -/
def operandInput : CPU :=
  { CPU.new with
    register_a := 0x0F
    program_counter := 0x10
    memory := fun a => (if a = 0x10 then 0xC7 else 0) }

set_option maxRecDepth 10000

/-! Helper lemmas. -/

/-- Composing a byte as `hi <<< 8 ||| lo` yields the little-endian
value `256 * hi + lo` whenever the low byte is byte-sized. -/
theorem byte_lor_shift (hi lo : Nat) (h : lo < 256) :
    hi <<< 8 ||| lo = 256 * hi + lo := by
  rw [Nat.shiftLeft_eq, Nat.mul_comm, ← Nat.mul_add_lt_is_or h hi]

/-- Reading any in-range index of a replicated list gives the
replicated element. -/
theorem getD_replicate (n i x d : Nat) (h : i < n) :
    (List.replicate n x).getD i d = x := by
  simp [List.getD, h]

/-- Bit 7 of a byte, phrased as the source phrases it. -/
theorem band128_eq_testBit : ∀ r < 256, (r &&& 128 != 0) = r.testBit 7 := by
  decide

/-- Bit 6 of a byte, phrased as the source phrases it. -/
theorem band64_eq_testBit : ∀ r < 256, (r &&& 64 != 0) = r.testBit 6 := by
  decide

/-- The source's shift test `value >> 7 == 1` is bit 7 of a byte. -/
theorem shift7_eq_testBit : ∀ v < 256, decide (v >>> 7 = 1) = v.testBit 7 := by
  decide

/-- Status-byte bookkeeping of CPU::compare: writing Carry, then Zero,
then Negative leaves each of the three readable independently. -/
theorem flagCmpCore : ∀ st < 256, ∀ b1 b2 b3 : Bool,
    checkFlag (setFlagIf (setFlagIf (setFlagIf st FLAG_CARRY b1) FLAG_ZERO b2) FLAG_NEGATIVE b3) FLAG_CARRY = b1 ∧
    checkFlag (setFlagIf (setFlagIf (setFlagIf st FLAG_CARRY b1) FLAG_ZERO b2) FLAG_NEGATIVE b3) FLAG_ZERO = b2 ∧
    checkFlag (setFlagIf (setFlagIf (setFlagIf st FLAG_CARRY b1) FLAG_ZERO b2) FLAG_NEGATIVE b3) FLAG_NEGATIVE = b3 := by
  decide

/-- Status-byte bookkeeping of CPU::asl: writing Carry then Negative
leaves both readable and does not move the Zero bit. -/
theorem flagAslCore : ∀ st < 256, ∀ b1 b2 : Bool,
    checkFlag (setFlagIf (setFlagIf st FLAG_CARRY b1) FLAG_NEGATIVE b2) FLAG_CARRY = b1 ∧
    checkFlag (setFlagIf (setFlagIf st FLAG_CARRY b1) FLAG_NEGATIVE b2) FLAG_NEGATIVE = b2 ∧
    checkFlag (setFlagIf (setFlagIf st FLAG_CARRY b1) FLAG_NEGATIVE b2) FLAG_ZERO = checkFlag st FLAG_ZERO := by
  decide

/-- Status-byte bookkeeping of CPU::bit: writing Overflow, then
Negative, then Zero leaves each of the three readable. -/
theorem flagBitCore : ∀ st < 256, ∀ b1 b2 b3 : Bool,
    checkFlag (setFlagIf (setFlagIf (setFlagIf st FLAG_OVERFLOW b1) FLAG_NEGATIVE b2) FLAG_ZERO b3) FLAG_OVERFLOW = b1 ∧
    checkFlag (setFlagIf (setFlagIf (setFlagIf st FLAG_OVERFLOW b1) FLAG_NEGATIVE b2) FLAG_ZERO b3) FLAG_NEGATIVE = b2 ∧
    checkFlag (setFlagIf (setFlagIf (setFlagIf st FLAG_OVERFLOW b1) FLAG_NEGATIVE b2) FLAG_ZERO b3) FLAG_ZERO = b3 := by
  decide

/-! Claim theorems. -/

/-- C1 counterexample: reset does not zero register Y — on a state
whose Y register holds 5, Y still holds 5 after reset (the source's
CPU::reset assigns register_a, register_x and status only). -/
theorem reset_leaves_y_counterexample :
    (reset resetYInput).register_y = 5 ∧ (5 : Nat) ≠ 0 :=
  ⟨rfl, by decide⟩

/-- C1 (amended): reset zeroes A, X and the status byte, loads the
program counter with the 16-bit little-endian word stored at 0xFFFC,
and leaves register Y and every memory byte unchanged (register Y is
not zeroed). -/
theorem reset_spec (s : CPU) (hlo : s.memory 0xFFFC < 256) :
    (reset s).register_a = 0 ∧ (reset s).register_x = 0 ∧
    (reset s).status = 0 ∧ (reset s).register_y = s.register_y ∧
    (reset s).program_counter = 256 * s.memory 0xFFFD + s.memory 0xFFFC ∧
    ∀ a, (reset s).memory a = s.memory a := by
  refine ⟨rfl, rfl, rfl, rfl, ?_, fun a => rfl⟩
  show mem_read_u16 _ 0xFFFC = _
  unfold mem_read_u16 mem_read
  exact byte_lor_shift _ _ hlo

/-- C1 witness: on a state with vector bytes 0x34/0x12 and Y = 7,
reset yields program counter 0x1234 and leaves Y at 7. -/
theorem reset_spec_witness :
    (reset resetVecInput).program_counter = 0x1234 ∧
    (reset resetVecInput).register_y = 7 := by
  have h := reset_spec resetVecInput (by decide)
  exact ⟨by rw [h.2.2.2.2.1]; rfl, h.2.2.2.1⟩

/-- C2: the memory array of the source has 0xFFFF = 65535 entries, not
65536 — reading the top address 0xFFFF of the 64KB space is out of
bounds and aborts instead of returning a byte. -/
theorem mem_read_top_address_out_of_bounds :
    mem_read? CPU.new 0xFFFF = none ∧ MEMORY_SIZE = 65535 ∧
    MEMORY_SIZE ≠ 65536 := by
  refine ⟨?_, rfl, by decide⟩
  unfold mem_read? MEMORY_SIZE
  rw [if_neg (by omega)]

/-- C9: reset is idempotent — resetting twice with nothing in between
is the same state as resetting once (reset leaves memory untouched, so
the second reset reads the same reset vector and writes the same
register values). -/
theorem reset_idempotent (s : CPU) : reset (reset s) = reset s := rfl

/-- C10: loading fails (the slice copy into the 0xFFFF-entry memory
array aborts) exactly for programs longer than 0x7FFF bytes. -/
theorem load_none_iff_too_long (s : CPU) (program : List Nat) :
    load? s program = none ↔ 0x7FFF < program.length := by
  unfold load? MEMORY_SIZE
  split <;> rename_i h <;> simp <;> omega

/-- C7 counterexample: bytes of the program do not all end at
0x8000 + i — for a program of 0x7FFD bytes all equal to 0xAB, the byte
at index 0x7FFC should end at address 0xFFFC, but the reset-vector
write that follows the copy overwrites that address with 0x00. -/
theorem load_overwrite_counterexample :
    0x7FFC < (List.replicate 0x7FFD 0xAB).length ∧
    (load CPU.new (List.replicate 0x7FFD 0xAB)).memory (0x8000 + 0x7FFC) = 0 ∧
    (List.replicate 0x7FFD 0xAB).getD 0x7FFC 0 = 0xAB ∧ (0 : Nat) ≠ 0xAB := by
  refine ⟨by rw [List.length_replicate]; norm_num, ?_,
    getD_replicate _ _ _ _ (by norm_num), by decide⟩
  simp only [load, mem_write_u16, mem_write]
  rw [if_neg (show ¬((0x8000 + 0x7FFC : Nat) = 0xFFFC + 1) by norm_num)]
  rw [if_pos trivial]
  decide

/-- C7 (amended): for a program of at most 0x7FFC bytes — so that it
does not reach the reset-vector addresses — load copies every byte i
verbatim to 0x8000 + i, writes the little-endian reset vector 0x8000 at
0xFFFC/0xFFFD, and changes no other memory byte and no register.  (For
longer programs the trailing write of the reset vector overwrites the
program bytes destined for 0xFFFC/0xFFFD, and beyond 0x7FFF bytes the
copy aborts.) -/
theorem load_places_program (s : CPU) (program : List Nat)
    (h : program.length ≤ 0x7FFC) :
    load? s program = some (load s program) ∧
    (∀ i, i < program.length →
      (load s program).memory (0x8000 + i) = program.getD i 0) ∧
    (load s program).memory 0xFFFC = 0x00 ∧
    (load s program).memory 0xFFFD = 0x80 ∧
    (∀ a, a < 0x8000 ∨ (0x8000 + program.length ≤ a ∧ a ≠ 0xFFFC ∧ a ≠ 0xFFFD) →
      (load s program).memory a = s.memory a) ∧
    (load s program).register_a = s.register_a ∧
    (load s program).register_x = s.register_x ∧
    (load s program).register_y = s.register_y ∧
    (load s program).status = s.status ∧
    (load s program).program_counter = s.program_counter := by
  refine ⟨?_, ?_, ?_, ?_, ?_, rfl, rfl, rfl, rfl, rfl⟩
  · unfold load?; rw [if_pos]; unfold MEMORY_SIZE; omega
  · intro i hi
    simp only [load, mem_write_u16, mem_write]
    rw [if_neg (by omega), if_neg (by omega), if_pos ⟨by omega, by omega⟩]
    simp
  · simp [load, mem_write_u16, mem_write]; decide
  · simp [load, mem_write_u16, mem_write]
  · intro a ha
    simp only [load, mem_write_u16, mem_write]
    rw [if_neg (by omega), if_neg (by omega), if_neg (by omega)]

/-- C7 witness: loading the three-byte program [1, 2, 3] into a fresh
CPU places byte 2 at 0x8001 and the vector high byte 0x80 at 0xFFFD. -/
theorem load_places_program_witness :
    (load CPU.new [1, 2, 3]).memory 0x8001 = 2 ∧
    (load CPU.new [1, 2, 3]).memory 0xFFFD = 0x80 := by
  have h := load_places_program CPU.new [1, 2, 3] (by norm_num)
  refine ⟨?_, h.2.2.2.1⟩
  have h1 := h.2.1 1 (by norm_num)
  norm_num at h1
  exact h1

/-- The source's `if cond then set_flag else clear_flag` pattern is
set_flag_if of the decided condition. -/
theorem ite_set_clear (s : CPU) (f : Nat) (P : Prop) [inst : Decidable P] :
    (if P then set_flag s f else clear_flag s f) = set_flag_if s f (decide P) := by
  by_cases h : P <;> simp [h, set_flag, clear_flag, set_flag_if, setFlagIf, setFlag, clearFlag]

/-- u8 wrapping subtraction produces a byte. -/
theorem wrapping_sub8_lt (a b : Nat) : wrapping_sub8 a b < 256 :=
  Nat.mod_lt _ (by norm_num)

/-- C4: for the compare operation shared by CMP/CPX/CPY, Carry is set
iff register ≥ operand, Zero iff register = operand, Negative is bit 7
of the 8-bit wrapping difference register − operand, and no register
and no memory byte changes. -/
theorem compare_spec (s : CPU) (mode : AddressingMode) (v : Nat)
    (hmode : mode ≠ AddressingMode.NoneAddressing)
    (hst : s.status < 256) (hv : v < 256)
    (hd : mem_read s (get_operand_address s mode) < 256) :
    (compare s mode v).register_a = s.register_a ∧
    (compare s mode v).register_x = s.register_x ∧
    (compare s mode v).register_y = s.register_y ∧
    (compare s mode v).program_counter = s.program_counter ∧
    (compare s mode v).memory = s.memory ∧
    (check_flag (compare s mode v) FLAG_CARRY = true ↔
      mem_read s (get_operand_address s mode) ≤ v) ∧
    (check_flag (compare s mode v) FLAG_ZERO = true ↔
      v = mem_read s (get_operand_address s mode)) ∧
    check_flag (compare s mode v) FLAG_NEGATIVE =
      (wrapping_sub8 v (mem_read s (get_operand_address s mode))).testBit 7 := by
  set d := mem_read s (get_operand_address s mode) with hdeq
  have hcore := flagCmpCore s.status hst (decide (v ≥ d))
    (wrapping_sub8 v d == 0) (wrapping_sub8 v d &&& 128 != 0)
  have hsteq : (compare s mode v).status =
      setFlagIf (setFlagIf (setFlagIf s.status FLAG_CARRY (decide (v ≥ d))) FLAG_ZERO (wrapping_sub8 v d == 0)) FLAG_NEGATIVE (wrapping_sub8 v d &&& 128 != 0) := by
    show (update_zero_and_negative_flags
        (if v ≥ d then set_flag s FLAG_CARRY else clear_flag s FLAG_CARRY)
        (wrapping_sub8 v d)).status = _
    rw [ite_set_clear]
    rfl
  have hrega : (compare s mode v).register_a = s.register_a := by
    show (update_zero_and_negative_flags
        (if v ≥ d then set_flag s FLAG_CARRY else clear_flag s FLAG_CARRY)
        (wrapping_sub8 v d)).register_a = _
    split <;> rfl
  have hregx : (compare s mode v).register_x = s.register_x := by
    show (update_zero_and_negative_flags
        (if v ≥ d then set_flag s FLAG_CARRY else clear_flag s FLAG_CARRY)
        (wrapping_sub8 v d)).register_x = _
    split <;> rfl
  have hregy : (compare s mode v).register_y = s.register_y := by
    show (update_zero_and_negative_flags
        (if v ≥ d then set_flag s FLAG_CARRY else clear_flag s FLAG_CARRY)
        (wrapping_sub8 v d)).register_y = _
    split <;> rfl
  have hpc : (compare s mode v).program_counter = s.program_counter := by
    show (update_zero_and_negative_flags
        (if v ≥ d then set_flag s FLAG_CARRY else clear_flag s FLAG_CARRY)
        (wrapping_sub8 v d)).program_counter = _
    split <;> rfl
  have hmem : (compare s mode v).memory = s.memory := by
    show (update_zero_and_negative_flags
        (if v ≥ d then set_flag s FLAG_CARRY else clear_flag s FLAG_CARRY)
        (wrapping_sub8 v d)).memory = _
    split <;> rfl
  refine ⟨hrega, hregx, hregy, hpc, hmem, ?_, ?_, ?_⟩
  · show checkFlag (compare s mode v).status FLAG_CARRY = true ↔ _
    rw [hsteq, hcore.1]
    simp
  · show checkFlag (compare s mode v).status FLAG_ZERO = true ↔ _
    rw [hsteq, hcore.2.1]
    have hlt := wrapping_sub8_lt v d
    simp only [beq_iff_eq]
    unfold wrapping_sub8
    constructor
    · intro hz; omega
    · intro hz; omega
  · show checkFlag (compare s mode v).status FLAG_NEGATIVE = _
    rw [hsteq, hcore.2.2]
    exact band128_eq_testBit _ (wrapping_sub8_lt _ _)

/-- C4 witness: comparing 200 against the operand byte 0xC7 = 199 in
immediate mode sets Carry and leaves memory untouched. -/
theorem compare_spec_witness :
    check_flag (compare operandInput AddressingMode.Immediate 200) FLAG_CARRY = true ∧
    (compare operandInput AddressingMode.Immediate 200).memory = operandInput.memory := by
  have h := compare_spec operandInput AddressingMode.Immediate 200
    (by decide) (by decide) (by decide) (by decide)
  exact ⟨h.2.2.2.2.2.1.mpr (by decide), h.2.2.2.2.1⟩

/-- C5: the memory-operand ASL handler sets Carry to the old bit 7 of
the operand, writes the shifted byte back to the effective address
(leaving every other byte alone), refreshes Negative from the new
value, and leaves the Zero flag exactly as it was. -/
theorem asl_spec (s : CPU) (mode : AddressingMode)
    (hmode : mode ≠ AddressingMode.NoneAddressing)
    (hst : s.status < 256)
    (hv : mem_read s (get_operand_address s mode) < 256) :
    check_flag (asl s mode) FLAG_CARRY =
      (mem_read s (get_operand_address s mode)).testBit 7 ∧
    (asl s mode).memory (get_operand_address s mode) =
      (mem_read s (get_operand_address s mode) <<< 1) % 256 ∧
    (∀ a, a ≠ get_operand_address s mode → (asl s mode).memory a = s.memory a) ∧
    check_flag (asl s mode) FLAG_NEGATIVE =
      ((mem_read s (get_operand_address s mode) <<< 1) % 256).testBit 7 ∧
    check_flag (asl s mode) FLAG_ZERO = check_flag s FLAG_ZERO ∧
    (asl s mode).register_a = s.register_a ∧
    (asl s mode).register_x = s.register_x ∧
    (asl s mode).register_y = s.register_y ∧
    (asl s mode).program_counter = s.program_counter := by
  set addr := get_operand_address s mode with haddr
  set v := mem_read s addr with hveq
  have hnewlt : (v <<< 1) % 256 < 256 := Nat.mod_lt _ (by norm_num)
  have hcore := flagAslCore s.status hst (decide (v >>> 7 = 1))
    ((v <<< 1) % 256 &&& 128 != 0)
  have hsteq : (asl s mode).status =
      setFlagIf (setFlagIf s.status FLAG_CARRY (decide (v >>> 7 = 1))) FLAG_NEGATIVE ((v <<< 1) % 256 &&& 128 != 0) := by
    show (update_negative_flag
        (mem_write (if v >>> 7 = 1 then set_flag s FLAG_CARRY else clear_flag s FLAG_CARRY) addr ((v <<< 1) % 256))
        ((v <<< 1) % 256)).status = _
    rw [ite_set_clear]
    rfl
  have hmema : ∀ a, (asl s mode).memory a =
      (if a = addr then (v <<< 1) % 256 else s.memory a) := by
    intro a
    show (update_negative_flag
        (mem_write (if v >>> 7 = 1 then set_flag s FLAG_CARRY else clear_flag s FLAG_CARRY) addr ((v <<< 1) % 256))
        ((v <<< 1) % 256)).memory a = _
    split <;> rfl
  refine ⟨?_, ?_, ?_, ?_, ?_, ?_, ?_, ?_, ?_⟩
  · show checkFlag (asl s mode).status FLAG_CARRY = _
    rw [hsteq, hcore.1]
    exact shift7_eq_testBit v hv
  · rw [hmema addr, if_pos rfl]
  · intro a ha
    rw [hmema a, if_neg ha]
  · show checkFlag (asl s mode).status FLAG_NEGATIVE = _
    rw [hsteq, hcore.2.1]
    exact band128_eq_testBit _ hnewlt
  · show checkFlag (asl s mode).status FLAG_ZERO = _
    rw [hsteq]
    exact hcore.2.2
  · show (update_negative_flag
        (mem_write (if v >>> 7 = 1 then set_flag s FLAG_CARRY else clear_flag s FLAG_CARRY) addr ((v <<< 1) % 256))
        ((v <<< 1) % 256)).register_a = _
    split <;> rfl
  · show (update_negative_flag
        (mem_write (if v >>> 7 = 1 then set_flag s FLAG_CARRY else clear_flag s FLAG_CARRY) addr ((v <<< 1) % 256))
        ((v <<< 1) % 256)).register_x = _
    split <;> rfl
  · show (update_negative_flag
        (mem_write (if v >>> 7 = 1 then set_flag s FLAG_CARRY else clear_flag s FLAG_CARRY) addr ((v <<< 1) % 256))
        ((v <<< 1) % 256)).register_y = _
    split <;> rfl
  · show (update_negative_flag
        (mem_write (if v >>> 7 = 1 then set_flag s FLAG_CARRY else clear_flag s FLAG_CARRY) addr ((v <<< 1) % 256))
        ((v <<< 1) % 256)).program_counter = _
    split <;> rfl

/-- C5 witness: shifting the operand byte 0xC7 in immediate mode sets
Carry (old bit 7) and stores 0x8E at the effective address 0x10. -/
theorem asl_spec_witness :
    check_flag (asl operandInput AddressingMode.Immediate) FLAG_CARRY = true ∧
    (asl operandInput AddressingMode.Immediate).memory 0x10 = 0x8E := by
  have h := asl_spec operandInput AddressingMode.Immediate
    (by decide) (by decide) (by decide)
  exact ⟨h.1.trans (by decide), h.2.1⟩

/-- C6: BIT loads Overflow with bit 6 of the operand, Negative with
bit 7, and Zero with whether A AND operand is zero, while registers
A, X, Y, the program counter and every memory byte are unchanged. -/
theorem bit_spec (s : CPU) (mode : AddressingMode)
    (hmode : mode ≠ AddressingMode.NoneAddressing)
    (hst : s.status < 256)
    (hd : mem_read s (get_operand_address s mode) < 256) :
    (bit s mode).register_a = s.register_a ∧
    (bit s mode).register_x = s.register_x ∧
    (bit s mode).register_y = s.register_y ∧
    (bit s mode).program_counter = s.program_counter ∧
    (bit s mode).memory = s.memory ∧
    check_flag (bit s mode) FLAG_OVERFLOW =
      (mem_read s (get_operand_address s mode)).testBit 6 ∧
    check_flag (bit s mode) FLAG_NEGATIVE =
      (mem_read s (get_operand_address s mode)).testBit 7 ∧
    (check_flag (bit s mode) FLAG_ZERO = true ↔
      s.register_a &&& mem_read s (get_operand_address s mode) = 0) := by
  set d := mem_read s (get_operand_address s mode) with hdeq
  have hcore := flagBitCore s.status hst (d &&& FLAG_OVERFLOW != 0)
    (d &&& FLAG_NEGATIVE != 0) (d &&& s.register_a == 0)
  have hsteq : (bit s mode).status =
      setFlagIf (setFlagIf (setFlagIf s.status FLAG_OVERFLOW (d &&& FLAG_OVERFLOW != 0)) FLAG_NEGATIVE (d &&& FLAG_NEGATIVE != 0)) FLAG_ZERO (d &&& s.register_a == 0) := rfl
  refine ⟨rfl, rfl, rfl, rfl, rfl, ?_, ?_, ?_⟩
  · show checkFlag (bit s mode).status FLAG_OVERFLOW = _
    rw [hsteq, hcore.1]
    exact band64_eq_testBit d hd
  · show checkFlag (bit s mode).status FLAG_NEGATIVE = _
    rw [hsteq, hcore.2.1]
    exact band128_eq_testBit d hd
  · show checkFlag (bit s mode).status FLAG_ZERO = true ↔ _
    rw [hsteq, hcore.2.2]
    simp [Nat.and_comm]

/-- C6 witness: BIT on the operand byte 0xC7 with A = 0x0F sets
Overflow (bit 6) and leaves A at 0x0F. -/
theorem bit_spec_witness :
    check_flag (bit operandInput AddressingMode.Immediate) FLAG_OVERFLOW = true ∧
    (bit operandInput AddressingMode.Immediate).register_a = 0x0F := by
  have h := bit_spec operandInput AddressingMode.Immediate
    (by decide) (by decide) (by decide)
  exact ⟨h.2.2.2.2.2.1.trans (by decide), h.1⟩

/-- A checked in-bounds read succeeds with the stored byte. -/
theorem res_read_ok (s : CPU) (a : Nat) (h : a < MEMORY_SIZE) :
    res_read s a = Except.ok (s.memory a) := by
  unfold res_read; rw [if_pos h]

/-- u8 wrapping addition produces a byte. -/
theorem wrapping_add8_lt (a b : Nat) : wrapping_add8 a b < 256 :=
  Nat.mod_lt _ (by norm_num)

/-- A checked read never raises the unsupported-mode error. -/
theorem res_read_ne_unsupported (s : CPU) (a : Nat) :
    res_read s a ≠ Except.error ResolveError.unsupportedMode := by
  unfold res_read; split <;> simp

/-- Sequencing of checked reads never raises the unsupported-mode
error when neither part does. -/
theorem except_bind_ne_unsupported (x : Except ResolveError Nat)
    (f : Nat → Except ResolveError Nat)
    (hx : x ≠ Except.error ResolveError.unsupportedMode)
    (hf : ∀ a, f a ≠ Except.error ResolveError.unsupportedMode) :
    x >>= f ≠ Except.error ResolveError.unsupportedMode := by
  cases x with
  | error e => simpa [Bind.bind, Except.bind] using hx
  | ok v => simpa [Bind.bind, Except.bind] using hf v

/-- Returning an address never raises the unsupported-mode error. -/
theorem pure_ne_unsupported (v : Nat) :
    (pure v : Except ResolveError Nat) ≠ Except.error ResolveError.unsupportedMode := by
  simp [pure, Except.pure]

/-- A checked 16-bit read never raises the unsupported-mode error. -/
theorem res_read_u16_ne_unsupported (s : CPU) (a : Nat) :
    res_read_u16 s a ≠ Except.error ResolveError.unsupportedMode := by
  unfold res_read_u16
  exact except_bind_ne_unsupported _ _ (res_read_ne_unsupported s a)
    (fun lo => except_bind_ne_unsupported _ _ (res_read_ne_unsupported s (a + 1))
      (fun hi => pure_ne_unsupported _))

/-- The resolver raises UnsupportedAddressingMode exactly on
NoneAddressing. -/
theorem resolver_unsupported_iff (s : CPU) (mode : AddressingMode) :
    get_operand_address? s mode = Except.error ResolveError.unsupportedMode ↔
      mode = AddressingMode.NoneAddressing := by
  constructor
  · intro h
    cases mode
    case NoneAddressing => rfl
    case Immediate => exact absurd h (by simp [get_operand_address?])
    case ZeroPage => exact absurd h (res_read_ne_unsupported s _)
    case ZeroPage_X =>
      exact absurd h (except_bind_ne_unsupported _ _ (res_read_ne_unsupported s _)
        (fun v => pure_ne_unsupported _))
    case ZeroPage_Y =>
      exact absurd h (except_bind_ne_unsupported _ _ (res_read_ne_unsupported s _)
        (fun v => pure_ne_unsupported _))
    case Absolute => exact absurd h (res_read_u16_ne_unsupported s _)
    case Absolute_X =>
      exact absurd h (except_bind_ne_unsupported _ _ (res_read_u16_ne_unsupported s _)
        (fun v => pure_ne_unsupported _))
    case Absolute_Y =>
      exact absurd h (except_bind_ne_unsupported _ _ (res_read_u16_ne_unsupported s _)
        (fun v => pure_ne_unsupported _))
    case Indirect_X =>
      exact absurd h (except_bind_ne_unsupported _ _ (res_read_ne_unsupported s _)
        (fun v => except_bind_ne_unsupported _ _ (res_read_ne_unsupported s _)
          (fun w => except_bind_ne_unsupported _ _ (res_read_ne_unsupported s _)
            (fun u => pure_ne_unsupported _))))
    case Indirect_Y =>
      exact absurd h (except_bind_ne_unsupported _ _ (res_read_ne_unsupported s _)
        (fun v => except_bind_ne_unsupported _ _ (res_read_ne_unsupported s _)
          (fun w => except_bind_ne_unsupported _ _ (res_read_ne_unsupported s _)
            (fun u => pure_ne_unsupported _))))
  · intro h; subst h; rfl

/-- C8 counterexample: a non-NoneAddressing mode can fail — resolving
ZeroPage with the program counter at 0xFFFF reads the operand byte at
index 0xFFFF, which is out of bounds for the 0xFFFF-entry memory
array, so the resolver aborts instead of returning an address. -/
theorem resolver_oob_counterexample :
    AddressingMode.ZeroPage ≠ AddressingMode.NoneAddressing ∧
    get_operand_address? pcTopInput AddressingMode.ZeroPage =
      Except.error ResolveError.outOfBounds := ⟨by decide, rfl⟩

/-- C8 (amended): calling the resolver with NoneAddressing always
raises UnsupportedAddressingMode and never returns an address, and no
other mode ever raises that error; each of the other nine modes
returns an address whenever the bytes it reads are in bounds — in
particular whenever the program counter is at most 0xFFFD — but can
abort with an out-of-bounds read when an operand byte lies at index
0xFFFF of the 0xFFFF-entry array. -/
theorem get_operand_address_spec (s : CPU) (mode : AddressingMode) :
    (get_operand_address? s mode = Except.error ResolveError.unsupportedMode ↔
      mode = AddressingMode.NoneAddressing) ∧
    (mode ≠ AddressingMode.NoneAddressing → s.program_counter + 1 < MEMORY_SIZE →
      s.memory s.program_counter < 256 →
      ∃ addr, get_operand_address? s mode = Except.ok addr) := by
  refine ⟨resolver_unsupported_iff s mode, ?_⟩
  intro hmode hpc hbyte
  have h1 : s.program_counter < MEMORY_SIZE := by omega
  have h256 : (256 : Nat) < MEMORY_SIZE := by decide
  cases mode
  case Immediate => exact ⟨s.program_counter, rfl⟩
  case ZeroPage => exact ⟨s.memory s.program_counter, res_read_ok s _ h1⟩
  case ZeroPage_X =>
    refine ⟨wrapping_add8 (s.memory s.program_counter) s.register_x, ?_⟩
    simp only [get_operand_address?, bind, Except.bind, res_read_ok s _ h1,
      pure, Except.pure]
  case ZeroPage_Y =>
    refine ⟨wrapping_add8 (s.memory s.program_counter) s.register_y, ?_⟩
    simp only [get_operand_address?, bind, Except.bind, res_read_ok s _ h1,
      pure, Except.pure]
  case Absolute =>
    refine ⟨s.memory (s.program_counter + 1) <<< 8 ||| s.memory s.program_counter, ?_⟩
    simp only [get_operand_address?, res_read_u16, bind, Except.bind,
      res_read_ok s _ h1, res_read_ok s _ hpc, pure, Except.pure]
  case Absolute_X =>
    refine ⟨wrapping_add16 (s.memory (s.program_counter + 1) <<< 8 ||| s.memory s.program_counter) s.register_x, ?_⟩
    simp only [get_operand_address?, res_read_u16, bind, Except.bind,
      res_read_ok s _ h1, res_read_ok s _ hpc, pure, Except.pure]
  case Absolute_Y =>
    refine ⟨wrapping_add16 (s.memory (s.program_counter + 1) <<< 8 ||| s.memory s.program_counter) s.register_y, ?_⟩
    simp only [get_operand_address?, res_read_u16, bind, Except.bind,
      res_read_ok s _ h1, res_read_ok s _ hpc, pure, Except.pure]
  case Indirect_X =>
    refine ⟨s.memory (wrapping_add8 (wrapping_add8 (s.memory s.program_counter) s.register_x) 1) <<< 8 |||
      s.memory (wrapping_add8 (s.memory s.program_counter) s.register_x), ?_⟩
    simp only [get_operand_address?, bind, Except.bind, res_read_ok s _ h1,
      res_read_ok s _ ((wrapping_add8_lt _ _).trans h256),
      pure, Except.pure]
  case Indirect_Y =>
    refine ⟨wrapping_add16 (s.memory (wrapping_add8 (s.memory s.program_counter) 1) <<< 8 |||
      s.memory (s.memory s.program_counter)) s.register_y, ?_⟩
    simp only [get_operand_address?, bind, Except.bind, res_read_ok s _ h1,
      res_read_ok s _ (hbyte.trans h256),
      res_read_ok s _ ((wrapping_add8_lt _ _).trans h256),
      pure, Except.pure]
  case NoneAddressing => exact absurd rfl hmode

/-- C8 witness: resolving ZeroPage on a fresh CPU (program counter 0)
returns the address stored at 0, namely 0. -/
theorem get_operand_address_spec_witness :
    ∃ addr, get_operand_address? CPU.new AddressingMode.ZeroPage = Except.ok addr := by
  have h := get_operand_address_spec CPU.new AddressingMode.ZeroPage
  exact h.2 (by decide) (by decide) (by decide)

/-- CPU::and leaves the program counter alone. -/
theorem and_op_pc (s : CPU) (m : AddressingMode) :
    (and_op s m).program_counter = s.program_counter := rfl

/-- CPU::asl_accumulator leaves the program counter alone. -/
theorem asl_accumulator_pc (s : CPU) :
    (asl_accumulator s).program_counter = s.program_counter := by
  show (set_register_a
      (if s.register_a >>> 7 = 1 then set_flag s FLAG_CARRY else clear_flag s FLAG_CARRY)
      ((s.register_a <<< 1) % 256)).program_counter = s.program_counter
  split <;> rfl

/-- CPU::asl leaves the program counter alone. -/
theorem asl_pc (s : CPU) (m : AddressingMode) :
    (asl s m).program_counter = s.program_counter := by
  show (update_negative_flag
      (mem_write
        (if mem_read s (get_operand_address s m) >>> 7 = 1
         then set_flag s FLAG_CARRY else clear_flag s FLAG_CARRY)
        (get_operand_address s m)
        ((mem_read s (get_operand_address s m) <<< 1) % 256))
      ((mem_read s (get_operand_address s m) <<< 1) % 256)).program_counter = s.program_counter
  split <;> rfl

/-- CPU::bit leaves the program counter alone. -/
theorem bit_pc (s : CPU) (m : AddressingMode) :
    (bit s m).program_counter = s.program_counter := rfl

/-- CPU::compare leaves the program counter alone. -/
theorem compare_pc (s : CPU) (m : AddressingMode) (v : Nat) :
    (compare s m v).program_counter = s.program_counter := by
  show (update_zero_and_negative_flags
      (if v ≥ mem_read s (get_operand_address s m)
       then set_flag s FLAG_CARRY else clear_flag s FLAG_CARRY)
      (wrapping_sub8 v (mem_read s (get_operand_address s m)))).program_counter = s.program_counter
  split <;> rfl

/-- CPU::clear_flag leaves the program counter alone. -/
theorem clear_flag_pc (s : CPU) (f : Nat) :
    (clear_flag s f).program_counter = s.program_counter := rfl

/-- CPU::dec leaves the program counter alone. -/
theorem dec_pc (s : CPU) (m : AddressingMode) :
    (dec s m).program_counter = s.program_counter := rfl

/-- CPU::dex leaves the program counter alone. -/
theorem dex_pc (s : CPU) (m : AddressingMode) :
    (dex s m).program_counter = s.program_counter := rfl

/-- CPU::dey leaves the program counter alone. -/
theorem dey_pc (s : CPU) (m : AddressingMode) :
    (dey s m).program_counter = s.program_counter := rfl

/-- CPU::lda leaves the program counter alone. -/
theorem lda_pc (s : CPU) (m : AddressingMode) :
    (lda s m).program_counter = s.program_counter := rfl

/-- CPU::ldx leaves the program counter alone. -/
theorem ldx_pc (s : CPU) (m : AddressingMode) :
    (ldx s m).program_counter = s.program_counter := rfl

/-- CPU::ldy leaves the program counter alone. -/
theorem ldy_pc (s : CPU) (m : AddressingMode) :
    (ldy s m).program_counter = s.program_counter := rfl

/-- CPU::sta leaves the program counter alone. -/
theorem sta_pc (s : CPU) (m : AddressingMode) :
    (sta s m).program_counter = s.program_counter := rfl

/-- CPU::tax leaves the program counter alone. -/
theorem tax_pc (s : CPU) : (tax s).program_counter = s.program_counter := rfl

/-- CPU::inx leaves the program counter alone. -/
theorem inx_pc (s : CPU) : (inx s).program_counter = s.program_counter := rfl

/-- Every opcode in the table has length at least 1. -/
theorem opLen_pos : ∀ op ∈ CPU_OPS_CODES, 1 ≤ op.len := by decide

/-- Every branch opcode in the table has length 2. -/
theorem branchLen2 : ∀ op ∈ CPU_OPS_CODES, isBranch op.code = true → op.len = 2 := by decide


/-- Program-counter outcome of one branch iteration after the opcode
fetch: a non-taken branch gets the adjustment (marker + 1); a taken
branch with offset other than 0xFF lands on its target and gets no
adjustment; a taken branch with offset 0xFF (relative -1) lands back
on the marker, so the engine applies the adjustment anyway. -/
theorem branch_step_pc (s : CPU) (cond : Bool) (L : Nat) (hL : L = 2)
    (hpc : s.program_counter + 2 ≤ 65536)
    (hoff : s.memory (s.program_counter + 1) < 256) :
    (if (branch { s with program_counter := s.program_counter + 1 } cond).program_counter = s.program_counter + 1
     then (branch { s with program_counter := s.program_counter + 1 } cond).program_counter + (L - 1)
     else (branch { s with program_counter := s.program_counter + 1 } cond).program_counter) =
    (if cond = true ∧ s.memory (s.program_counter + 1) ≠ 0xFF
     then branchTarget s
     else s.program_counter + L) := by
  subst hL
  have hbp : (branch { s with program_counter := s.program_counter + 1 } cond).program_counter =
      (if cond then
        ((s.program_counter + 1 + 1) % 65536 +
          (if 128 ≤ s.memory (s.program_counter + 1)
           then 0xFF00 + s.memory (s.program_counter + 1)
           else s.memory (s.program_counter + 1))) % 65536
       else s.program_counter + 1) := by
    cases cond <;> simp [branch, mem_read, wrapping_add16]
  rw [hbp]
  cases cond
  · simp
  · simp only [eq_self_iff_true, true_and, if_true]
    by_cases hff : s.memory (s.program_counter + 1) = 0xFF
    · rw [hff]
      rw [if_pos (show (128 : Nat) ≤ 255 by norm_num)]
      have hW : ((s.program_counter + 1 + 1) % 65536 + (0xFF00 + 255)) % 65536 =
          s.program_counter + 1 := by omega
      rw [if_pos hW, hW]
      norm_num
    · rw [if_pos hff]
      have hne : ((s.program_counter + 1 + 1) % 65536 +
          (if 128 ≤ s.memory (s.program_counter + 1)
           then 0xFF00 + s.memory (s.program_counter + 1)
           else s.memory (s.program_counter + 1))) % 65536 ≠
          s.program_counter + 1 := by
        by_cases h128 : 128 ≤ s.memory (s.program_counter + 1)
        · rw [if_pos h128]; omega
        · rw [if_neg h128]; omega
      rw [if_neg hne]
      simp only [branchTarget, wrapping_add16]

/-- One run-loop iteration on a mapped non-BRK opcode: fetch, bump the
program counter, dispatch, and apply the (len - 1) adjustment exactly
when the handler left the program counter at the marker. -/
theorem runStep_next (s : CPU) (op : OpCode)
    (hfetch : OPCODES_MAP (mem_read s s.program_counter) = some op)
    (hbrk : mem_read s s.program_counter ≠ 0x00) :
    runStep s = StepResult.next
      (if (dispatch (mem_read s s.program_counter) op.mode
            { s with program_counter := s.program_counter + 1 }).program_counter =
          s.program_counter + 1
       then { dispatch (mem_read s s.program_counter) op.mode
                { s with program_counter := s.program_counter + 1 } with
              program_counter :=
                (dispatch (mem_read s s.program_counter) op.mode
                  { s with program_counter := s.program_counter + 1 }).program_counter +
                (op.len - 1) }
       else dispatch (mem_read s s.program_counter) op.mode
              { s with program_counter := s.program_counter + 1 }) := by
  simp only [runStep, hfetch]
  rw [if_neg hbrk]

set_option maxHeartbeats 2000000 in
/-- C3 (amended): in every iteration of the run loop on a mapped
non-BRK opcode, the engine advances program_counter by
(instructionLength - 1) when and only when the handler returned with
program_counter equal to the marker.  Non-branch handlers never move
the program counter, so they always get the adjustment (final pc =
pc + len); a taken branch with offset other than 0xFF moves to the
branch target and gets no adjustment; but a taken branch with offset
0xFF (relative -1) redirects control flow back to the marker and the
engine applies the adjustment anyway. -/
theorem runStep_pc_spec (s : CPU) (op : OpCode)
    (hfetch : OPCODES_MAP (mem_read s s.program_counter) = some op)
    (hbrk : mem_read s s.program_counter ≠ 0x00)
    (hpc : s.program_counter + 2 ≤ 65536)
    (hoff : s.memory (s.program_counter + 1) < 256) :
    ∃ s', runStep s = StepResult.next s' ∧
      s'.program_counter =
        (if branchCond (mem_read s s.program_counter) s = true ∧
            s.memory (s.program_counter + 1) ≠ 0xFF
         then branchTarget s
         else s.program_counter + op.len) := by
  have hmem : op ∈ CPU_OPS_CODES := List.mem_of_find?_eq_some hfetch
  have hopcode : op.code = mem_read s s.program_counter := by
    have h := List.find?_some hfetch
    simpa using h
  have hlen1 : 1 ≤ op.len := opLen_pos op hmem
  have hmemc : mem_read s s.program_counter ∈ CPU_OPS_CODES.map (fun o => o.code) := by
    rw [← hopcode]
    exact List.mem_map_of_mem _ hmem
  rw [runStep_next s op hfetch hbrk]
  refine ⟨_, rfl, ?_⟩
  rw [apply_ite (fun c : CPU => c.program_counter)]
  dsimp only
  simp only [CPU_OPS_CODES, List.map_cons, List.map_nil, List.mem_cons,
    List.not_mem_nil, or_false] at hmemc
  rcases hmemc with hc|hc|hc|hc|hc|hc|hc|hc|hc|hc|hc|hc|hc|hc|hc|hc|hc|hc|hc|hc|hc|hc|hc|hc|hc|hc|hc|hc|hc|hc|hc|hc|hc|hc|hc|hc|hc|hc|hc|hc|hc|hc|hc|hc|hc|hc|hc|hc|hc|hc|hc|hc|hc|hc|hc|hc|hc
  all_goals rw [hc]
  all_goals first
    | exact absurd hc hbrk
    | (have hbr2 : op.len = 2 := branchLen2 op hmem (by simp only [hopcode, hc]; decide)
       exact branch_step_pc s _ op.len hbr2 hpc hoff)
    | (split
       · rename_i hdp
         rw [hdp]
         split
         · rename_i hcontra
           simp [branchCond] at hcontra
         · omega
       · rename_i hdp
         exfalso
         apply hdp
         first
           | rfl
           | exact asl_accumulator_pc _
           | exact asl_pc _ _
           | exact compare_pc _ _ _)

/-- C3 counterexample: on a taken BEQ with relative offset 0xFF (-1)
the branch redirects control flow to the marker address 0x8001, yet
the engine still applies the (len - 1) adjustment and ends at 0x8002
instead of the branch target. -/
theorem run_adjusts_taken_branch_counterexample :
    check_flag branchBackInput FLAG_ZERO = true ∧
    (∃ s', runStep branchBackInput = StepResult.next s' ∧
      s'.program_counter = 0x8002) ∧
    branchTarget branchBackInput = 0x8001 ∧ (0x8002 : Nat) ≠ 0x8001 :=
  ⟨by decide, ⟨_, rfl, rfl⟩, by decide, by decide⟩

/-- C3 witness: one iteration on LDA immediate at 0x8000 completes and
advances the program counter by the instruction length to 0x8002. -/
theorem runStep_pc_spec_witness :
    ∃ s', runStep ldaImmInput = StepResult.next s' ∧
      s'.program_counter = 0x8002 := by
  have h := runStep_pc_spec ldaImmInput
    ⟨0xA9, "LDA", 2, 2, AddressingMode.Immediate⟩ rfl
    (by decide) (by decide) (by decide)
  obtain ⟨s1, h1, h2⟩ := h
  refine ⟨s1, h1, ?_⟩
  rw [h2]
  decide

end NesEmu
